import Mathlib

set_option maxRecDepth 100000

/-!
# Verification of the KokoroFlowChatter conversation-control core

This file gives a shallow embedding, in Lean 4, of the parts of the
`kokoro_flow_chatter` plugin that the checked properties talk about:

* the mental log (`src/mental_log.py`),
* the per-stream session (`src/session.py`, `src/models.py`),
* the timeout handler (`src/thinker/timeout_handler.py`),
* the wait policy (`src/config.py`, `WaitSection.apply_rules`),
* the outbound content sanitizer (`src/strategies/unified.py`,
  `src/actions/reply.py`),
* the timeout payload builders (`src/strategies/unified.py`,
  `src/prompts/modules.py`),
* the fused narrative builder (`src/prompts/builder.py`),
* the proactive quiet-hours gate (`src/thinker/proactive.py`).

Modelling conventions:

* Python floats (timestamps, durations) are modelled as rationals `ℚ`;
  the code only adds, subtracts and compares them.
* `time.time()` is threaded explicitly: every operation that reads the
  wall clock takes a `now : ℚ` argument.  Where one Python function calls
  `time.time()` more than once, the calls are modelled as the same
  instant.
* Python dicts with string keys (action records, entry metadata) are
  modelled as association lists `List (String × MetaValue)`; assignment
  replaces an existing binding in place or appends a new one, as CPython
  dicts do (insertion order preserved).
* `int` counters are `ℕ` (they are only ever incremented from 0 or reset
  to 0 in the modelled code).
-/

namespace KFC

/-- `src/models.py` `KFCEventType`: the eight mental-log event kinds. -/
inductive KFCEventType where
  | USER_MESSAGE
  | BOT_PLANNING
  | WAITING_START
  | WAITING_UPDATE
  | REPLY_IN_TIME
  | REPLY_LATE
  | WAIT_TIMEOUT
  | PROACTIVE_TRIGGER
deriving DecidableEq, Repr

/-- `str(KFCEventType.X)` — the enum's string value (`models.py`). -/
def KFCEventType.toStr : KFCEventType → String
  | .USER_MESSAGE => "user_message"
  | .BOT_PLANNING => "bot_planning"
  | .WAITING_START => "waiting_start"
  | .WAITING_UPDATE => "waiting_update"
  | .REPLY_IN_TIME => "reply_in_time"
  | .REPLY_LATE => "reply_late"
  | .WAIT_TIMEOUT => "wait_timeout"
  | .PROACTIVE_TRIGGER => "proactive_trigger"

/-- `KFCEventType(value)` with the `except ValueError` fallback of
`MentalLogEntry.from_dict` (`mental_log.py`): unknown strings coerce to
`USER_MESSAGE`. -/
def KFCEventType.ofStr (s : String) : KFCEventType :=
  if s = "user_message" then .USER_MESSAGE
  else if s = "bot_planning" then .BOT_PLANNING
  else if s = "waiting_start" then .WAITING_START
  else if s = "waiting_update" then .WAITING_UPDATE
  else if s = "reply_in_time" then .REPLY_IN_TIME
  else if s = "reply_late" then .REPLY_LATE
  else if s = "wait_timeout" then .WAIT_TIMEOUT
  else if s = "proactive_trigger" then .PROACTIVE_TRIGGER
  else .USER_MESSAGE

/-- A JSON-ish scalar stored in an action record or a metadata map. -/
inductive MetaValue where
  | s (v : String)
  | n (v : ℚ)
deriving DecidableEq, Repr

/-- A Python string-keyed dict (action record / metadata), as an
insertion-ordered association list. -/
abbrev Dict := List (String × MetaValue)

/-- `d[k] = v`: replace the existing binding in place, else append. -/
def Dict.set (d : Dict) (k : String) (v : MetaValue) : Dict :=
  if d.any (fun p => p.1 = k) then
    d.map (fun p => if p.1 = k then (k, v) else p)
  else d ++ [(k, v)]

/-- `d.get(k)` (first — and only — binding for `k`). -/
def Dict.get? (d : Dict) (k : String) : Option MetaValue :=
  (d.find? (fun p => p.1 = k)).map (·.2)

/-- `d.get(k)` when a string is expected; non-string values give `none`
(in Python they would simply fail the string comparisons made on them). -/
def Dict.getStr? (d : Dict) (k : String) : Option String :=
  match d.get? k with
  | some (.s v) => some v
  | _ => none

/-- `src/mental_log.py` `MentalLogEntry`: one event node of the mental
log, with the dataclass's field defaults. -/
structure MentalLogEntry where
  event_type : KFCEventType
  timestamp : ℚ
  content : String := ""
  user_name : String := ""
  user_id : String := ""
  thought : String := ""
  actions : List Dict := []
  expected_reaction : String := ""
  max_wait_seconds : ℚ := 0
  elapsed_seconds : ℚ := 0
  waiting_thought : String := ""
  mood : String := ""
  metadata : Dict := []
deriving DecidableEq, Repr

/-- `src/mental_log.py` `MentalLog`: the bounded entry container
(`_entries`, `_max_entries`; constructor default `max_entries = 50`). -/
structure MentalLog where
  entries : List MentalLogEntry := []
  max_entries : ℕ := 50
deriving DecidableEq, Repr

/-- The Python slice `l[-m:]` for `m ≥ 0`: the last `m` elements — except
that `l[-0:]` is `l[0:]`, i.e. the whole list. -/
def pySliceLast (m : ℕ) (l : List α) : List α :=
  if m = 0 then l else l.drop (l.length - m)

/-- `MentalLog.add`: append, then truncate with `_entries[-_max_entries:]`
when the length exceeds `_max_entries`. -/
def MentalLog.add (log : MentalLog) (e : MentalLogEntry) : MentalLog :=
  let l := log.entries ++ [e]
  { log with
    entries := if l.length > log.max_entries then pySliceLast log.max_entries l else l }

/-- Inner loop of `MentalLog.get_last_bot_reply_content`: the first action
of type `kfc_reply`/`respond` whose `content` is non-empty. -/
def actionReplyContent? (a : Dict) : Option String :=
  match a.getStr? "type" with
  | some t =>
      if t = "kfc_reply" ∨ t = "respond" then
        match a.getStr? "content" with
        | some c => if c ≠ "" then some c else none
        | none => none
      else none
  | none => none

/-- `MentalLog.get_last_bot_reply_content`: scan entries newest-to-oldest,
return the first non-empty reply content inside a `BOT_PLANNING` entry,
else `""`. -/
def MentalLog.get_last_bot_reply_content (log : MentalLog) : String :=
  (log.entries.reverse.findSome? fun e =>
    if e.event_type = .BOT_PLANNING then e.actions.findSome? actionReplyContent?
    else none).getD ""

/-- `src/config.py` `KFCConfig.WaitSection` (defaults from the `Field`
declarations). -/
structure WaitSection where
  min_seconds : ℚ := 10
  max_seconds : ℚ := 600
  max_consecutive_timeouts : ℕ := 3
deriving DecidableEq, Repr

/-- `WaitSection.apply_rules` (`config.py` lines 60–66). -/
def WaitSection.apply_rules (w : WaitSection) (raw_seconds : ℚ)
    (consecutive_timeouts : ℕ) : ℚ :=
  if raw_seconds ≤ 0 then 0
  else if consecutive_timeouts ≥ w.max_consecutive_timeouts then 0
  else max w.min_seconds (min raw_seconds w.max_seconds)

/-- Python's `f"{q:.0f}"` rendering of a float, modelled as rounding to an
integer (Python rounds half-to-even; the difference can only affect the
cosmetic `content` strings, which no checked property inspects). -/
def pyFormat0f (q : ℚ) : String := toString (round q)

/-- `src/models.py` `WaitingConfig` (dataclass defaults). -/
structure WaitingConfig where
  expected_reaction : String := ""
  max_wait_seconds : ℚ := 0
  started_at : ℚ := 0
  last_thinking_at : ℚ := 0
  thinking_count : ℕ := 0
  followup_count : ℕ := 0
deriving DecidableEq, Repr

/-- `WaitingConfig.is_active`: `max_wait_seconds > 0 and started_at > 0`. -/
def WaitingConfig.is_active (w : WaitingConfig) : Bool :=
  decide (0 < w.max_wait_seconds) && decide (0 < w.started_at)

/-- `WaitingConfig.get_elapsed_seconds` at wall-clock `now`. -/
def WaitingConfig.get_elapsed_seconds (w : WaitingConfig) (now : ℚ) : ℚ :=
  if w.is_active then now - w.started_at else 0

/-- `WaitingConfig.is_timeout` at wall-clock `now`. -/
def WaitingConfig.is_timeout (w : WaitingConfig) (now : ℚ) : Bool :=
  if w.is_active then decide (w.max_wait_seconds ≤ w.get_elapsed_seconds now)
  else false

/-- `src/session.py` `KFCSession` (dataclass; the `time.time()` default
factories become explicit creation-time arguments where they matter). -/
structure KFCSession where
  user_id : String := ""
  stream_id : String := ""
  waiting_config : WaitingConfig := {}
  consecutive_timeout_count : ℕ := 0
  created_at : ℚ := 0
  last_activity_at : ℚ := 0
  last_user_message_at : Option ℚ := none
  last_proactive_at : Option ℚ := none
  mental_log : MentalLog := {}
  pending_thoughts : List String := []
  total_interactions : ℕ := 0
deriving DecidableEq, Repr

/-- `KFCSession.clear_waiting`: `waiting_config.reset()` (all fields back
to their defaults) and `last_activity_at = time.time()`. -/
def KFCSession.clear_waiting (s : KFCSession) (now : ℚ) : KFCSession :=
  { s with waiting_config := {}, last_activity_at := now }

/-- `KFCSession.set_waiting`: behaves as `clear_waiting` when
`config.max_wait_seconds <= 0`, else installs the config. -/
def KFCSession.set_waiting (s : KFCSession) (config : WaitingConfig) (now : ℚ) :
    KFCSession :=
  if config.max_wait_seconds ≤ 0 then s.clear_waiting now
  else { s with waiting_config := config }

/-- `KFCSession.is_waiting`. -/
def KFCSession.is_waiting (s : KFCSession) : Bool := s.waiting_config.is_active

/-- `KFCSession.add_user_message`.  `timestamp` is the optional argument
(`None` modelled as `none`); `msg_time = timestamp or time.time()`, so a
`0` timestamp is falsy and also falls back to `now`.  Returns the mutated
session together with the appended entry.  The three metadata assignments
on the fresh entry's dict append in order. -/
def KFCSession.add_user_message (s : KFCSession) (content user_name user_id : String)
    (timestamp : Option ℚ) (now : ℚ) : KFCSession × MentalLogEntry :=
  let msg_time : ℚ :=
    match timestamp with
    | some t => if t = 0 then now else t
    | none => now
  let md : Dict :=
    if s.waiting_config.is_active then
      let elapsed := s.waiting_config.get_elapsed_seconds now
      let max_wait := s.waiting_config.max_wait_seconds
      [("reply_status", .s (if elapsed ≤ max_wait then "in_time" else "late")),
       ("elapsed_seconds", .n elapsed),
       ("max_wait_seconds", .n max_wait)]
    else []
  let entry : MentalLogEntry :=
    { event_type := .USER_MESSAGE, timestamp := msg_time, content := content,
      user_name := user_name, user_id := user_id, metadata := md }
  ({ s with
      mental_log := s.mental_log.add entry,
      consecutive_timeout_count := 0,
      last_user_message_at := some msg_time,
      last_activity_at := msg_time }, entry)

/-- The context dict returned by `TimeoutHandler.handle_timeout`. -/
structure TimeoutContext where
  elapsed_seconds : ℚ
  expected_reaction : String
  consecutive_timeouts : ℕ
  pending_thoughts : List String
  last_bot_message : String
deriving DecidableEq, Repr

/-- `TimeoutHandler.check_timeout` (`thinker/timeout_handler.py`). -/
def checkTimeout (s : KFCSession) (now : ℚ) : Bool :=
  s.waiting_config.is_timeout now

/-- `TimeoutHandler.handle_timeout`: read elapsed/expected, increment the
consecutive-timeout counter, append a `WAIT_TIMEOUT` entry, snapshot
`pending_thoughts`, read the last bot reply, clear waiting; return the
context and the mutated session. -/
def handleTimeout (s : KFCSession) (now : ℚ) : TimeoutContext × KFCSession :=
  let elapsed := s.waiting_config.get_elapsed_seconds now
  let expected := s.waiting_config.expected_reaction
  let s1 := { s with consecutive_timeout_count := s.consecutive_timeout_count + 1 }
  let timeout_entry : MentalLogEntry :=
    { event_type := .WAIT_TIMEOUT, timestamp := now, elapsed_seconds := elapsed,
      content := "等待超时，已等待 " ++ pyFormat0f elapsed ++ " 秒" }
  let s2 := { s1 with mental_log := s1.mental_log.add timeout_entry }
  let pending := s2.pending_thoughts
  let last_bot_message := s2.mental_log.get_last_bot_reply_content
  let s3 := s2.clear_waiting now
  ({ elapsed_seconds := elapsed, expected_reaction := expected,
     consecutive_timeouts := s3.consecutive_timeout_count,
     pending_thoughts := pending, last_bot_message := last_bot_message }, s3)

/-- `TimeoutHandler.should_give_up`:
`consecutive_timeout_count >= config.wait.max_consecutive_timeouts`. -/
def shouldGiveUp (w : WaitSection) (s : KFCSession) : Bool :=
  decide (w.max_consecutive_timeouts ≤ s.consecutive_timeout_count)

/-- A run of consecutive `handle_timeout` calls (no intervening user
message), one wall-clock instant per call. -/
def iterateTimeouts (s : KFCSession) (times : List ℚ) : KFCSession :=
  times.foldl (fun st t => (handleTimeout st t).2) s

/-- `src/config.py` `ProactiveSection` (defaults from the `Field`
declarations; `trigger_probability` default `0.3`). -/
structure ProactiveSection where
  enabled : Bool := true
  silence_threshold : ℚ := 7200
  trigger_probability : ℚ := 3/10
  min_interval : ℚ := 1800
  quiet_hours_start : String := "23:00"
  quiet_hours_end : String := "07:00"
  check_interval : ℚ := 60
deriving DecidableEq, Repr

/-- Python truthiness of an `Optional[float]`: `None` and `0.0` are
falsy. -/
def pyTruthy : Option ℚ → Bool
  | none => false
  | some v => decide (v ≠ 0)

/-- `ProactiveThinker._should_trigger` (`thinker/proactive.py`), with the
wall clock `now` and the `random.random()` draw `rand` made explicit. -/
def shouldTrigger (p : ProactiveSection) (s : KFCSession) (now rand : ℚ) : Bool :=
  if now - s.last_activity_at < p.silence_threshold then false
  else if pyTruthy s.last_proactive_at
          && decide (now - s.last_proactive_at.getD 0 < p.min_interval) then false
  else if p.trigger_probability < rand then false
  else true

/-- Python `str.split(sep)` for a single-character separator, over a char
list: every separator occurrence splits, empty fields preserved. -/
def splitCharsOn (sep : Char) : List Char → List (List Char)
  | [] => [[]]
  | c :: rest =>
      match splitCharsOn sep rest with
      | [] => if c = sep then [[], []] else [[c]]
      | h :: t => if c = sep then [] :: h :: t else (c :: h) :: t

/-- Python `int(...)` on a plain digit string (`""` raises `ValueError` →
`none`).  Python's `int` also accepts signs and surrounding whitespace;
such strings are not `HH:MM` strings and are outside every checked
property. -/
def natOfDigits (l : List Char) : Option ℕ :=
  if l = [] then none
  else
    l.foldl
      (fun acc c =>
        match acc with
        | some a => if '0' ≤ c ∧ c ≤ '9' then some (a * 10 + (c.toNat - '0'.toNat)) else none
        | none => none)
      (some 0)

/-- `int(parts[0]) * 60 + int(parts[1])` after `s.split(":")`: the
minute-of-day encoded by an `HH:MM` string.  Parse failures
(`ValueError` / `IndexError` in Python) give `none`. -/
def parseHHMM (s : String) : Option ℕ :=
  match splitCharsOn ':' s.data with
  | p0 :: p1 :: _ =>
      match natOfDigits p0, natOfDigits p1 with
      | some h, some m => some (h * 60 + m)
      | _, _ => none
  | _ => none

/-- `ProactiveThinker._is_quiet_hours`, as a function of the current
minute-of-day (`tm_hour * 60 + tm_min`); the `except` clause makes any
parse failure return `False`. -/
def isQuietHours (p : ProactiveSection) (current_minutes : ℕ) : Bool :=
  match parseHHMM p.quiet_hours_start, parseHHMM p.quiet_hours_end with
  | some start_minutes, some end_minutes =>
      if start_minutes ≤ end_minutes then
        decide (start_minutes ≤ current_minutes ∧ current_minutes < end_minutes)
      else
        decide (start_minutes ≤ current_minutes ∨ current_minutes < end_minutes)
  | _, _ => false

/-- `ProactiveThinker.check_all_sessions`: empty when disabled or inside
quiet hours, else the stream ids whose sessions pass `_should_trigger`
(one `random.random()` draw per session, supplied as `rand`). -/
def checkAllSessions (p : ProactiveSection) (sessions : List (String × KFCSession))
    (current_minutes : ℕ) (now : ℚ) (rand : String → ℚ) : List String :=
  if !p.enabled then []
  else if isQuietHours p current_minutes then []
  else (sessions.filter (fun sp => shouldTrigger p sp.2 now (rand sp.1))).map (·.1)

/-- A sequence of `MentalLog.add` calls. -/
def MentalLog.addAll (log : MentalLog) (es : List MentalLogEntry) : MentalLog :=
  es.foldl MentalLog.add log

/-- The last `m` elements of a list (`m > 0` intended); used to reason
about `pySliceLast`. -/
def keepLast (m : ℕ) (l : List α) : List α := l.drop (l.length - m)

/-- The dict produced by `MentalLogEntry.to_dict` (`mental_log.py`): a
record with the thirteen fixed keys; `event_type` is serialized through
`str(...)`. -/
structure EntryRecord where
  event_type : String
  timestamp : ℚ
  content : String
  user_name : String
  user_id : String
  thought : String
  actions : List Dict
  expected_reaction : String
  max_wait_seconds : ℚ
  elapsed_seconds : ℚ
  waiting_thought : String
  mood : String
  metadata : Dict
deriving DecidableEq, Repr

/-- `MentalLogEntry.to_dict`. -/
def MentalLogEntry.to_dict (e : MentalLogEntry) : EntryRecord :=
  { event_type := e.event_type.toStr, timestamp := e.timestamp,
    content := e.content, user_name := e.user_name, user_id := e.user_id,
    thought := e.thought, actions := e.actions,
    expected_reaction := e.expected_reaction,
    max_wait_seconds := e.max_wait_seconds,
    elapsed_seconds := e.elapsed_seconds,
    waiting_thought := e.waiting_thought, mood := e.mood,
    metadata := e.metadata }

/-- `MentalLogEntry.from_dict` on a full record (the defensive `.get`
defaults never fire on `to_dict` output; the `float(...)` coercions are
the identity on numbers; unknown `event_type` strings coerce to
`USER_MESSAGE` inside `KFCEventType.ofStr`). -/
def MentalLogEntry.from_dict (r : EntryRecord) : MentalLogEntry :=
  { event_type := .ofStr r.event_type, timestamp := r.timestamp,
    content := r.content, user_name := r.user_name, user_id := r.user_id,
    thought := r.thought, actions := r.actions,
    expected_reaction := r.expected_reaction,
    max_wait_seconds := r.max_wait_seconds,
    elapsed_seconds := r.elapsed_seconds,
    waiting_thought := r.waiting_thought, mood := r.mood,
    metadata := r.metadata }

/-- `MentalLog.to_list`. -/
def MentalLog.to_list (log : MentalLog) : List EntryRecord :=
  log.entries.map MentalLogEntry.to_dict

/-- `MentalLog.from_list` (Python default `max_entries = 50`): rebuild the
entries, then truncate with `_entries[-max_entries:]` when over the
limit. -/
def MentalLog.from_list (data : List EntryRecord) (max_entries : ℕ) : MentalLog :=
  let l := data.map MentalLogEntry.from_dict
  { entries := if l.length > max_entries then pySliceLast max_entries l else l,
    max_entries := max_entries }

/-- Characters matched by the regex class `\s` (ASCII part; the pattern's
keywords contain no exotic whitespace and neither do the literals any
checked property evaluates). -/
def isPySpace (c : Char) : Bool :=
  c == ' ' || c == '\t' || c == '\n' || c == '\r' || c == '\x0b' || c == '\x0c'

/-- Keyword alternatives of `_METADATA_PATTERN` (identical in
`strategies/unified.py` and `actions/reply.py`): five groups covering
thought, expected reaction, wait time, mood and reason, in Chinese and
English. -/
def metadataKeywords : List (List Char) :=
  ["想法".data, "内心想法".data, "思考".data, "thought".data, "thinking".data,
   "预计反应".data, "预期反应".data, "期望反应".data,
   "expected_reaction".data, "expected_user_reaction".data,
   "最大等待秒数".data, "等待时间".data, "max_wait_seconds".data,
   "心情".data, "情绪".data, "mood".data,
   "理由".data, "原因".data, "reason".data]

/-- Case-insensitive keyword match (`re.IGNORECASE`; the pattern's ASCII
keywords are lowercase, Chinese characters are case-invariant): returns
the input after the keyword when the keyword is a prefix of it. -/
def matchKeyword : List Char → List Char → Option (List Char)
  | [], rest => some rest
  | _ :: _, [] => none
  | k :: ks, c :: cs => if c.toLower = k then matchKeyword ks cs else none

/-- Matches the `\s*(?:keyword)\s*[:：]` body of `_METADATA_PATTERN`
against a prefix of `l`.  The greedy `\s*` runs need no backtracking: no
keyword starts with whitespace and neither colon is whitespace. -/
def tryMatchBody (l : List Char) : Bool :=
  let l1 := l.dropWhile isPySpace
  metadataKeywords.any fun kw =>
    match matchKeyword kw l1 with
    | some rest =>
        match rest.dropWhile isPySpace with
        | c :: _ => c == ':' || c == '：'
        | [] => false
    | none => false

/-- Whether `_METADATA_PATTERN` matches starting at index `i`: the
`(?:^|\n)` prefix anchors the match either at the string start or at
(and consuming) a newline. -/
def matchAt (l : List Char) (i : ℕ) : Bool :=
  (decide (i = 0) && tryMatchBody l) ||
  (match l.drop i with
   | c :: rest => c == '\n' && tryMatchBody rest
   | [] => false)

/-- All match start positions, ascending; `re.search` reports the first. -/
def matchPositions (l : List Char) : List ℕ :=
  (List.range (l.length + 1)).filter (fun i => matchAt l i)

/-- Python `str.strip()` (ASCII whitespace; see `isPySpace`). -/
def pyStrip (l : List Char) : List Char :=
  ((l.dropWhile isPySpace).reverse.dropWhile isPySpace).reverse

/-- `UnifiedStrategy._sanitize_content` (`strategies/unified.py`; the
last-line-of-defence in `actions/reply.py` applies the same
search-and-truncate): empty content is returned as is; otherwise, if
`_METADATA_PATTERN.search` finds a match, the content is cut at
`match.start()` and stripped, else returned unchanged. -/
def sanitizeContent (content : String) : String :=
  if content = "" then content
  else
    match (matchPositions content.data).head? with
    | some i => ⟨pyStrip (content.data.take i)⟩
    | none => content

/-- A chat-history message as consumed by
`KFCPromptBuilder.build_fused_narrative` (`prompts/builder.py`): only the
four attributes it reads.  A non-numeric `time` attribute is modelled as
`none` (the code skips such messages). -/
structure HistoryMsg where
  time : Option ℚ := none
  sender_name : String := ""
  sender_id : String := ""
  processed_plain_text : String := ""
deriving DecidableEq, Repr

/-- Two-digit zero-padded rendering of a small integer. -/
def pad2 (n : ℤ) : String :=
  if n < 10 then "0" ++ toString n else toString n

/-- Model of `datetime.fromtimestamp(ts).strftime("%H:%M:%S")`: hours,
minutes, seconds of the day containing `ts` (timezone offset and the
`OSError`/`OverflowError` guard omitted — no checked property inspects
the rendered text, only which lines exist and their timestamps). -/
def formatHMS (ts : ℚ) : String :=
  let sec : ℤ := ⌊ts⌋ % 86400
  pad2 (sec / 3600) ++ ":" ++ pad2 ((sec / 60) % 60) ++ ":" ++ pad2 (sec % 60)

/-- Chat-record half of the fused timeline (`build_fused_narrative`,
first loop): messages with a numeric `time` and non-whitespace text
become `(ts, line)` pairs; `is_bot = bot_id and sender_id == bot_id`. -/
def chatLines (msgs : List HistoryMsg) (bot_id : String) : List (ℚ × String) :=
  msgs.filterMap fun m =>
    match m.time with
    | none => none
    | some ts =>
        if (⟨pyStrip m.processed_plain_text.data⟩ : String) = "" then none
        else if bot_id ≠ "" ∧ m.sender_id = bot_id then
          some (ts, "[" ++ formatHMS ts ++ "] 你回复：" ++ m.processed_plain_text)
        else
          some (ts, "[" ++ formatHMS ts ++ "] " ++ m.sender_name ++ "说："
            ++ m.processed_plain_text)

/-- The `mental_cutoff` of `build_fused_narrative`:
`chat_timestamps[-7]` when at least 7 chat timestamps exist, else `0.0`. -/
def mentalCutoff (msgs : List HistoryMsg) (bot_id : String) : ℚ :=
  let chat_ts := (chatLines msgs bot_id).map Prod.fst
  if 7 ≤ chat_ts.length then chat_ts.getD (chat_ts.length - 7) 0 else 0

/-- The `(timestamp, line)` pair contributed by a `BOT_PLANNING` entry to
the fused timeline. -/
def renderMentalLine (e : MentalLogEntry) : ℚ × String :=
  (e.timestamp, "[" ++ formatHMS e.timestamp ++ "] （你的内心：" ++ e.thought ++ "）")

/-- Mental-log half of the fused timeline (`build_fused_narrative`,
second loop, iterating `mental_log.entries`): entries at or after the
cutoff whose kind is `BOT_PLANNING` and whose `thought` is non-empty. -/
def mentalLines (entries : List MentalLogEntry) (cutoff : ℚ) : List (ℚ × String) :=
  entries.filterMap fun e =>
    if e.timestamp < cutoff then none
    else if e.event_type = .BOT_PLANNING ∧ e.thought ≠ "" then some (renderMentalLine e)
    else none

instance : IsTotal (ℚ × String) (fun a b => a.1 ≤ b.1) :=
  ⟨fun a b => le_total a.1 b.1⟩

instance : IsTrans (ℚ × String) (fun a b => a.1 ≤ b.1) :=
  ⟨fun _ _ _ => le_trans⟩

/-- The sorted fused timeline: chat lines, then mental lines, stably
sorted ascending by timestamp (`timeline.sort(key=lambda x: x[0])`;
insertion sort is stable, matching Python's stable sort). -/
def fusedTimeline (msgs : List HistoryMsg) (log : MentalLog) (bot_id : String) :
    List (ℚ × String) :=
  List.insertionSort (fun a b => a.1 ≤ b.1)
    (chatLines msgs bot_id ++ mentalLines log.entries (mentalCutoff msgs bot_id))

/-- `KFCPromptBuilder.build_fused_narrative`: empty string on an empty
timeline, else a header plus the newline-joined sorted lines. -/
def build_fused_narrative (msgs : List HistoryMsg) (log : MentalLog)
    (bot_id : String) : String :=
  let timeline := fusedTimeline msgs log bot_id
  if timeline = [] then ""
  else
    "以下为融合了聊天记录与你内心活动的时间线：\n"
      ++ String.intercalate "\n" (timeline.map Prod.snd)

/-- Python `sep.join(parts)`. -/
def joinSep (sep : String) : List String → String
  | [] => ""
  | [x] => x
  | x :: y :: rest => x ++ sep ++ joinSep sep (y :: rest)

/-- Substring containment: `t` occurs contiguously inside `s`. -/
def Contains (s t : String) : Prop := ∃ p q, s = p ++ t ++ q

/-- Executable substring check (for concrete refutations): some position
of `text` starts with `pat`. -/
def listHasInfix (text pat : List Char) : Bool :=
  (List.range (text.length + 1)).any fun i => pat.isPrefixOf (text.drop i)

/-- Variant of `UnifiedStrategy.generate_timeout_decision`
(`strategies/unified.py`, the timeout payload the live chatter appends to
the LLM chain): the text of the returned user payload.  The consecutive
count appears only as the notice `这已经是连续第 N 次超时了。` when
`N > 1`; the last up-to-three `pending_thoughts` are listed as `  - `
bullets. -/
def generateTimeoutDecision (elapsed_seconds : ℚ) (expected_reaction : String)
    (consecutive_timeouts : ℕ) (pending_thoughts : List String) : String :=
  joinSep "\n"
    (["# 等待超时通知",
      "你已经等了 " ++ pyFormat0f elapsed_seconds ++ " 秒，但对方还没有回复。"]
     ++ (if expected_reaction ≠ "" then
          ["你之前期望的回应：" ++ expected_reaction] else [])
     ++ (if 1 < consecutive_timeouts then
          ["这已经是连续第 " ++ toString consecutive_timeouts ++ " 次超时了。"] else [])
     ++ (if pending_thoughts ≠ [] then
          ["等待期间你的想法：\n"
            ++ joinSep "\n" ((keepLast 3 pending_thoughts).map (fun t => "  - " ++ t))]
         else [])
     ++ ["\n请决定下一步行动：你可以主动追问、换个话题、"
          ++ "或者结束对话等待下次机会。"
          ++ "\n请按照 JSON 格式回复。"])

/-- The graduated follow-up warning of `build_timeout_context`
(`prompts/modules.py`), indexed by `followup_count`; the adjacent string
literals of the source are kept as separate `++` pieces. -/
def followupWarning (followup_count : ℕ) : String :=
  if 2 ≤ followup_count then
    "\n⚠️ **强烈建议**: 你已经连续追问了 " ++ toString followup_count
      ++ " 次，对方仍未回复。"
      ++ "**极度推荐选择 do_nothing 并将 max_wait_seconds 设为 0**。"
      ++ "对方可能在忙或需要空间，给彼此一些空间会更好。"
  else if followup_count = 1 then
    "\n📝 温馨提醒：这是你第 2 次等待回复（已追问 1 次）。"
      ++ "可以再试着追问一次，但如果对方还是没回复，"
      ++ "**强烈建议**之后选择 do_nothing 结束等待。"
  else
    "\n💭 这是第一次等待超时。如果觉得话题还没结束，"
      ++ "可以适当追问一下，但也要考虑对方可能在忙。"

/-- Modelled from the spec: the template constant `KFC_TIMEOUT_PROMPT` is
imported by `prompts/modules.py` from `prompts/templates.py`, but its
definition is absent from the provided sources.  Per the specification
the timeout payload carries a 等待超时通知 header with the elapsed
seconds/minutes, the prior expected reaction and last bot message, the
follow-up warning, the pending-thoughts block, and an instruction to
answer in the same JSON shape; `.format` substitutes the six fields into
that fixed text. -/
def KFC_TIMEOUT_PROMPT_format (elapsed_seconds elapsed_minutes expected_reaction
    last_bot_message followup_warning pending_thoughts_block : String) : String :=
  "# 等待超时通知\n你已经等待了 " ++ elapsed_seconds ++ " 秒（约 "
    ++ elapsed_minutes ++ " 分钟），对方还没有回复。\n你之前期望的回应："
    ++ expected_reaction ++ "\n你最后发送的消息：" ++ last_bot_message
    ++ "\n" ++ followup_warning ++ "\n" ++ pending_thoughts_block
    ++ "\n请结合以上信息决定下一步行动，并按照 JSON 格式回复。"

/-- `build_timeout_context` (`prompts/modules.py`):
`followup_count = max(0, consecutive_timeouts - 1)` (truncated
subtraction on `ℕ`), the graduated warning, and — unlike the claim — a
pending block that joins *all* `pending_thoughts` inline with `、`. -/
def build_timeout_context (elapsed_seconds : ℚ) (expected_reaction : String)
    (consecutive_timeouts : ℕ) (last_bot_message : String)
    (pending_thoughts : List String) : String :=
  let elapsed_minutes := elapsed_seconds / 60
  let followup_count := consecutive_timeouts - 1
  let pending_block :=
    if pending_thoughts ≠ [] then
      "\n你等待期间的想法：" ++ joinSep "、" pending_thoughts
    else ""
  KFC_TIMEOUT_PROMPT_format (pyFormat0f elapsed_seconds) (pyFormat0f elapsed_minutes)
    (if expected_reaction ≠ "" then expected_reaction else "对方能回复点什么")
    (if last_bot_message ≠ "" then last_bot_message else "（消息内容不可用）")
    (followupWarning followup_count) pending_block

end KFC

namespace KFC

/-- C3: the wait policy returns 0 on `r ≤ 0`; returns 0 when the
consecutive-timeout count has reached `max_consecutive_timeouts`; and
otherwise returns the clamp of `r` to `[min_seconds, max_seconds]`, which
lies in that closed interval (whenever the interval is non-empty). -/
theorem C3_wait_policy_clamps (w : WaitSection) (r : ℚ) (c : ℕ) :
    (r ≤ 0 → w.apply_rules r c = 0) ∧
    (0 < r → w.max_consecutive_timeouts ≤ c → w.apply_rules r c = 0) ∧
    (0 < r → c < w.max_consecutive_timeouts →
      w.apply_rules r c = max w.min_seconds (min r w.max_seconds) ∧
      (w.min_seconds ≤ w.max_seconds →
        w.min_seconds ≤ w.apply_rules r c ∧ w.apply_rules r c ≤ w.max_seconds)) := by
  refine ⟨fun h => ?_, fun hr hc => ?_, fun hr hc => ?_⟩
  · simp [WaitSection.apply_rules, h]
  · simp [WaitSection.apply_rules, not_le.mpr hr, hc]
  · have heq : w.apply_rules r c = max w.min_seconds (min r w.max_seconds) := by
      simp [WaitSection.apply_rules, not_le.mpr hr, not_le.mpr hc]
    refine ⟨heq, fun hmm => ⟨?_, ?_⟩⟩
    · rw [heq]; exact le_max_left _ _
    · rw [heq]; exact max_le hmm (min_le_right _ _)

/-- Witness for C3 at concrete inputs (default config: min 10, max 600,
max_consecutive_timeouts 3). -/
theorem C3_wait_policy_clamps_witness :
    ({} : WaitSection).apply_rules (-5) 0 = 0 ∧
    ({} : WaitSection).apply_rules 50 3 = 0 ∧
    ({} : WaitSection).apply_rules 50 1 = max 10 (min 50 600) ∧
    (10 : ℚ) ≤ ({} : WaitSection).apply_rules 50 1 ∧
    ({} : WaitSection).apply_rules 50 1 ≤ 600 := by
  have h1 := (C3_wait_policy_clamps {} (-5) 0).1 (by norm_num)
  have h2 := (C3_wait_policy_clamps {} 50 3).2.1 (by norm_num) (by norm_num)
  have h3 := (C3_wait_policy_clamps {} 50 1).2.2 (by norm_num) (by norm_num)
  exact ⟨h1, h2, h3.1, (h3.2 (by norm_num)).1, (h3.2 (by norm_num)).2⟩

lemma handleTimeout_count (s : KFCSession) (t : ℚ) :
    (handleTimeout s t).2.consecutive_timeout_count = s.consecutive_timeout_count + 1 := by
  simp [handleTimeout, KFCSession.clear_waiting]

lemma iterateTimeouts_count (s : KFCSession) (times : List ℚ) :
    (iterateTimeouts s times).consecutive_timeout_count
      = s.consecutive_timeout_count + times.length := by
  induction times generalizing s with
  | nil => simp [iterateTimeouts]
  | cons t ts ih =>
      have : iterateTimeouts s (t :: ts) = iterateTimeouts (handleTimeout s t).2 ts := by
        simp [iterateTimeouts]
      rw [this, ih, handleTimeout_count, List.length_cons]
      omega

/-- C2: starting from `consecutive_timeout_count = 0`, every
`handle_timeout` call increments the counter by exactly 1 and appends one
`WaitTimeout` entry; after the `N`th consecutive call the counter is `N`,
and `should_give_up` then returns true iff `N ≥ max_consecutive_timeouts`
(so with the default `max = 3` the dialogue survives timeouts 1 and 2 and
gives up exactly on timeout 3). -/
theorem C2_timeout_count_and_give_up (s : KFCSession)
    (h0 : s.consecutive_timeout_count = 0) (times : List ℚ) (w : WaitSection) :
    (∀ (s' : KFCSession) (t : ℚ),
        (handleTimeout s' t).2.consecutive_timeout_count
            = s'.consecutive_timeout_count + 1 ∧
        ∃ e : MentalLogEntry, e.event_type = .WAIT_TIMEOUT ∧ e.timestamp = t ∧
          (handleTimeout s' t).2.mental_log = s'.mental_log.add e) ∧
    (iterateTimeouts s times).consecutive_timeout_count = times.length ∧
    shouldGiveUp w (iterateTimeouts s times)
      = decide (w.max_consecutive_timeouts ≤ times.length) := by
  refine ⟨fun s' t => ⟨handleTimeout_count s' t, ?_⟩, ?_, ?_⟩
  · exact ⟨{ event_type := .WAIT_TIMEOUT, timestamp := t,
             elapsed_seconds := s'.waiting_config.get_elapsed_seconds t,
             content := "等待超时，已等待 "
               ++ pyFormat0f (s'.waiting_config.get_elapsed_seconds t) ++ " 秒" },
           rfl, rfl, rfl⟩
  · rw [iterateTimeouts_count, h0, Nat.zero_add]
  · rw [shouldGiveUp, iterateTimeouts_count, h0, Nat.zero_add]

/-- Witness for C2 with the default `max_consecutive_timeouts = 3`:
continue after timeouts 1 and 2, give up on timeout 3. -/
theorem C2_timeout_count_and_give_up_witness :
    (iterateTimeouts {} [(10 : ℚ)]).consecutive_timeout_count = 1 ∧
    shouldGiveUp {} (iterateTimeouts {} [(10 : ℚ)]) = false ∧
    shouldGiveUp {} (iterateTimeouts {} [(10 : ℚ), 20]) = false ∧
    shouldGiveUp {} (iterateTimeouts {} [(10 : ℚ), 20, 30]) = true := by
  have h1 := C2_timeout_count_and_give_up {} rfl [(10 : ℚ)] {}
  have h2 := C2_timeout_count_and_give_up {} rfl [(10 : ℚ), 20] {}
  have h3 := C2_timeout_count_and_give_up {} rfl [(10 : ℚ), 20, 30] {}
  refine ⟨h1.2.1, ?_, ?_, ?_⟩
  · rw [h1.2.2]; rfl
  · rw [h2.2.2]; rfl
  · rw [h3.2.2]; rfl

/-- C6: after `add_user_message` the consecutive-timeout counter is 0 and
`last_user_message_at` / `last_activity_at` equal the appended entry's
timestamp; when the session was waiting, the entry's metadata carries
`reply_status = "in_time"` iff `elapsed ≤ max_wait_seconds` (else
`"late"`), together with `elapsed_seconds` and `max_wait_seconds`. -/
theorem C6_add_user_message_resets (s : KFCSession)
    (content user_name user_id : String) (timestamp : Option ℚ) (now : ℚ) :
    (s.add_user_message content user_name user_id timestamp now).1.consecutive_timeout_count
        = 0 ∧
    (s.add_user_message content user_name user_id timestamp now).1.last_user_message_at
        = some (s.add_user_message content user_name user_id timestamp now).2.timestamp ∧
    (s.add_user_message content user_name user_id timestamp now).1.last_activity_at
        = (s.add_user_message content user_name user_id timestamp now).2.timestamp ∧
    (s.waiting_config.is_active = true →
      ((s.add_user_message content user_name user_id timestamp now).2.metadata.get?
          "reply_status"
        = some (.s (if s.waiting_config.get_elapsed_seconds now
                        ≤ s.waiting_config.max_wait_seconds
                    then "in_time" else "late"))) ∧
      (((s.add_user_message content user_name user_id timestamp now).2.metadata.get?
          "reply_status" = some (.s "in_time"))
        ↔ s.waiting_config.get_elapsed_seconds now
            ≤ s.waiting_config.max_wait_seconds) ∧
      ((s.add_user_message content user_name user_id timestamp now).2.metadata.get?
          "elapsed_seconds"
        = some (.n (s.waiting_config.get_elapsed_seconds now))) ∧
      ((s.add_user_message content user_name user_id timestamp now).2.metadata.get?
          "max_wait_seconds" = some (.n s.waiting_config.max_wait_seconds))) := by
  refine ⟨rfl, rfl, rfl, fun hactive => ?_⟩
  by_cases hle : s.waiting_config.get_elapsed_seconds now
      ≤ s.waiting_config.max_wait_seconds
  · refine ⟨?_, ?_, ?_, ?_⟩ <;>
      simp [KFCSession.add_user_message, hactive, hle, Dict.get?, List.find?]
  · refine ⟨?_, ?_, ?_, ?_⟩ <;>
      simp [KFCSession.add_user_message, hactive, hle, Dict.get?, List.find?]

/-- Witness for C6: a waiting session (`max_wait = 100`, started at 0)
receives a message at `now = 30`, in time. -/
theorem C6_add_user_message_resets_witness :
    let s : KFCSession :=
      { consecutive_timeout_count := 2,
        waiting_config := { max_wait_seconds := 100, started_at := 1 } }
    (s.add_user_message "hi" "u" "1" (some 30) 31).1.consecutive_timeout_count = 0 ∧
    (s.add_user_message "hi" "u" "1" (some 30) 31).2.metadata.get? "reply_status"
      = some (.s "in_time") := by
  intro s
  have h := C6_add_user_message_resets s "hi" "u" "1" (some 30) 31
  have hactive : s.waiting_config.is_active = true := by decide
  refine ⟨h.1, ?_⟩
  have h4 := (h.2.2.2 hactive).1
  rw [h4]
  norm_num [WaitingConfig.get_elapsed_seconds, s, WaitingConfig.is_active]

/-- C10: `clear_waiting` — also when reached through `set_waiting` with a
non-positive `max_wait_seconds`, and through `handle_timeout` — sets
`last_activity_at` to the current time, so each wait-clearing restarts the
silence clock of the proactive silence-threshold gate. -/
theorem C10_clear_waiting_restarts_silence_clock (s : KFCSession) (now : ℚ) :
    (s.clear_waiting now).last_activity_at = now ∧
    (∀ cfg : WaitingConfig, cfg.max_wait_seconds ≤ 0 →
        (s.set_waiting cfg now).last_activity_at = now) ∧
    (handleTimeout s now).2.last_activity_at = now ∧
    (∀ (p : ProactiveSection) (now2 rand : ℚ),
        now2 - now < p.silence_threshold →
        shouldTrigger p (s.clear_waiting now) now2 rand = false) ∧
    (∀ (p : ProactiveSection) (now2 rand : ℚ),
        now2 - now < p.silence_threshold →
        shouldTrigger p (handleTimeout s now).2 now2 rand = false) := by
  refine ⟨rfl, fun cfg hcfg => ?_, rfl, fun p now2 rand h => ?_, fun p now2 rand h => ?_⟩
  · simp [KFCSession.set_waiting, hcfg, KFCSession.clear_waiting]
  · simp [shouldTrigger, KFCSession.clear_waiting, h]
  · simp [shouldTrigger, handleTimeout, KFCSession.clear_waiting, h]

/-- Witness for C10 at concrete values. -/
theorem C10_clear_waiting_restarts_silence_clock_witness :
    (({} : KFCSession).clear_waiting 5).last_activity_at = 5 ∧
    (({} : KFCSession).set_waiting { max_wait_seconds := 0 } 5).last_activity_at = 5 ∧
    (handleTimeout {} 5).2.last_activity_at = 5 ∧
    shouldTrigger {} (({} : KFCSession).clear_waiting 5) 6 0 = false := by
  have h := C10_clear_waiting_restarts_silence_clock {} 5
  exact ⟨h.1, h.2.1 { max_wait_seconds := 0 } (by norm_num), h.2.2.1,
         h.2.2.2.1 {} 6 0 (by norm_num)⟩

lemma length_keepLast (m : ℕ) (l : List α) : (keepLast m l).length = min l.length m := by
  simp [keepLast]
  omega

lemma keepLast_of_le {m : ℕ} {l : List α} (h : l.length ≤ m) : keepLast m l = l := by
  simp [keepLast, Nat.sub_eq_zero_of_le h]

lemma keepLast_append_left (m : ℕ) (p x : List α) (hx : m ≤ x.length) :
    keepLast m (p ++ x) = keepLast m x := by
  unfold keepLast
  rw [List.length_append]
  have : p.length + x.length - m = p.length + (x.length - m) := by omega
  rw [this, List.drop_append]

lemma keepLast_idem_append (m : ℕ) (_hm : 0 < m) (l r : List α) :
    keepLast m (keepLast m l ++ r) = keepLast m (l ++ r) := by
  by_cases hl : l.length ≤ m
  · rw [keepLast_of_le hl]
  · have hsplit : l = l.take (l.length - m) ++ keepLast m l := by
      simp [keepLast]
    have hlen : (keepLast m l).length = m := by
      rw [length_keepLast]; omega
    have hx : m ≤ (keepLast m l ++ r).length := by
      rw [List.length_append, hlen]; omega
    conv_rhs => rw [hsplit, List.append_assoc]
    rw [keepLast_append_left m _ _ hx]

lemma add_entries_eq_keepLast (log : MentalLog) (h : 0 < log.max_entries)
    (e : MentalLogEntry) :
    (log.add e).entries = keepLast log.max_entries (log.entries ++ [e]) := by
  simp only [MentalLog.add, pySliceLast, keepLast]
  split
  · rw [if_neg (Nat.pos_iff_ne_zero.mp h)]
  · next hle =>
      have : (log.entries ++ [e]).length - log.max_entries = 0 := by omega
      rw [this, List.drop_zero]

lemma add_max_entries (log : MentalLog) (e : MentalLogEntry) :
    (log.add e).max_entries = log.max_entries := rfl

lemma addAll_entries_eq_keepLast (es : List MentalLogEntry) (log : MentalLog)
    (h : 0 < log.max_entries) (e : MentalLogEntry) :
    (log.addAll (e :: es)).entries = keepLast log.max_entries (log.entries ++ e :: es) := by
  induction es generalizing log e with
  | nil =>
      simp only [MentalLog.addAll, List.foldl_cons, List.foldl_nil]
      exact add_entries_eq_keepLast log h e
  | cons e2 es2 ih =>
      have hstep : log.addAll (e :: e2 :: es2) = (log.add e).addAll (e2 :: es2) := by
        simp [MentalLog.addAll]
      rw [hstep, ih (log.add e) h e2, add_max_entries, add_entries_eq_keepLast log h e,
          keepLast_idem_append _ h, List.append_assoc, List.singleton_append]

/-- C7 counterexample: the claim quantifies over every mental log, but a
log with `max_entries = 0` never truncates — `entries[-0:]` is the whole
list in Python — so after one `add` its length (1) exceeds `max_entries`
(0). -/
theorem C7_counterexample_max_zero :
    (({ entries := [], max_entries := 0 } : MentalLog).add
        { event_type := .USER_MESSAGE, timestamp := 0 }).entries.length = 1 ∧
    ¬((({ entries := [], max_entries := 0 } : MentalLog).add
        { event_type := .USER_MESSAGE, timestamp := 0 }).entries.length
      ≤ ({ entries := [], max_entries := 0 } : MentalLog).max_entries) := by
  constructor <;> simp [MentalLog.add, pySliceLast]

/-- C7 (amended: for logs with `max_entries ≥ 1`): each `add` keeps
exactly the newest `max_entries` entries — the surviving entries are a
suffix of the insertion sequence in insertion order, precisely the oldest
are dropped on overflow, and the length never exceeds `max_entries`
(likewise after any non-empty sequence of `add` calls). -/
theorem C7_bounded_fifo (log : MentalLog) (h : 0 < log.max_entries)
    (e : MentalLogEntry) (es : List MentalLogEntry) :
    (log.add e).entries
        = (log.entries ++ [e]).drop ((log.entries.length + 1) - log.max_entries) ∧
    (log.add e).entries.length ≤ log.max_entries ∧
    (log.addAll (e :: es)).entries
        = (log.entries ++ e :: es).drop
            ((log.entries.length + (es.length + 1)) - log.max_entries) ∧
    (log.addAll (e :: es)).entries.length ≤ log.max_entries ∧
    (log.addAll (e :: es)).entries <:+ log.entries ++ e :: es := by
  have h1 := add_entries_eq_keepLast log h e
  have h2 := addAll_entries_eq_keepLast es log h e
  refine ⟨?_, ?_, ?_, ?_, ?_⟩
  · rw [h1]; simp [keepLast]
  · rw [h1, length_keepLast]; omega
  · rw [h2]; simp [keepLast]
  · rw [h2, length_keepLast]; omega
  · rw [h2]; exact List.drop_suffix _ _

/-- Witness for C7 (amended) at `max_entries = 2` with three adds. -/
theorem C7_bounded_fifo_witness :
    (({ entries := [], max_entries := 2 } : MentalLog).addAll
        [{ event_type := .USER_MESSAGE, timestamp := 1 },
         { event_type := .BOT_PLANNING, timestamp := 2 },
         { event_type := .WAIT_TIMEOUT, timestamp := 3 }]).entries
      = [{ event_type := .BOT_PLANNING, timestamp := 2 },
         { event_type := .WAIT_TIMEOUT, timestamp := 3 }] ∧
    (({ entries := [], max_entries := 2 } : MentalLog).addAll
        [{ event_type := .USER_MESSAGE, timestamp := 1 },
         { event_type := .BOT_PLANNING, timestamp := 2 },
         { event_type := .WAIT_TIMEOUT, timestamp := 3 }]).entries.length ≤ 2 := by
  have h := C7_bounded_fifo { entries := [], max_entries := 2 } (by norm_num)
    { event_type := .USER_MESSAGE, timestamp := 1 }
    [{ event_type := .BOT_PLANNING, timestamp := 2 },
     { event_type := .WAIT_TIMEOUT, timestamp := 3 }]
  refine ⟨?_, h.2.2.2.1⟩
  rw [h.2.2.1]
  rfl

lemma ofStr_toStr (et : KFCEventType) : KFCEventType.ofStr et.toStr = et := by
  cases et <;> rfl

lemma from_dict_to_dict (e : MentalLogEntry) :
    MentalLogEntry.from_dict e.to_dict = e := by
  cases e
  simp [MentalLogEntry.to_dict, MentalLogEntry.from_dict, ofStr_toStr]

/-- C8: deserializing a serialized mental log restores its entries:
`from_list(to_list(L), m).entries = L.entries` whenever `len(L) ≤ m`
(in particular for the Python default `m = 50`). -/
theorem C8_serialization_roundtrip (L : MentalLog) (m : ℕ)
    (h : L.entries.length ≤ m) :
    (MentalLog.from_list L.to_list m).entries = L.entries := by
  have hmap : L.to_list.map MentalLogEntry.from_dict = L.entries := by
    simp [MentalLog.to_list, List.map_map, Function.comp_def, from_dict_to_dict]
  simp only [MentalLog.from_list, hmap]
  rw [if_neg (by omega)]

/-- Witness for C8: a two-entry log (one of each interesting kind,
metadata included) round-trips at the default bound 50. -/
theorem C8_serialization_roundtrip_witness :
    (MentalLog.from_list
        ({ entries :=
            [{ event_type := .USER_MESSAGE, timestamp := 1, content := "hi",
               metadata := [("reply_status", .s "in_time")] },
             { event_type := .BOT_PLANNING, timestamp := 2, thought := "想法",
               actions := [[("type", .s "kfc_reply"), ("content", .s "好的")]] }],
           max_entries := 50 } : MentalLog).to_list 50).entries
      = [{ event_type := .USER_MESSAGE, timestamp := 1, content := "hi",
           metadata := [("reply_status", .s "in_time")] },
         { event_type := .BOT_PLANNING, timestamp := 2, thought := "想法",
           actions := [[("type", .s "kfc_reply"), ("content", .s "好的")]] }] :=
  C8_serialization_roundtrip _ 50 (by norm_num)

/-- C9: with `quiet_hours_start` / `quiet_hours_end` parsing to the
minute-of-day values `sm` / `em`, the quiet-hours gate holds iff the
current minute-of-day lies in `[sm, em)` when `sm ≤ em`, and in the
wrap-around region `[sm, 1440) ∪ [0, em)` when `sm > em`; while the gate
holds, `check_all_sessions` triggers nothing. -/
theorem C9_quiet_hours_gate (p : ProactiveSection) (cm sm em : ℕ)
    (hs : parseHHMM p.quiet_hours_start = some sm)
    (he : parseHHMM p.quiet_hours_end = some em)
    (hcm : cm < 1440) :
    (sm ≤ em → (isQuietHours p cm = true ↔ sm ≤ cm ∧ cm < em)) ∧
    (em < sm → (isQuietHours p cm = true ↔ (sm ≤ cm ∧ cm < 1440) ∨ cm < em)) ∧
    (isQuietHours p cm = true →
      ∀ (sessions : List (String × KFCSession)) (now : ℚ) (rand : String → ℚ),
        checkAllSessions p sessions cm now rand = []) := by
  refine ⟨fun hle => ?_, fun hlt => ?_, fun hq sessions now rand => ?_⟩
  · simp [isQuietHours, hs, he, hle]
  · simp only [isQuietHours, hs, he, if_neg (not_le.mpr hlt), decide_eq_true_eq]
    omega
  · simp [checkAllSessions, hq]

/-- Witness for C9 at the default quiet hours 23:00–07:00 (wrap-around):
01:40 (minute 100) is quiet, 13:20 (minute 800) is not, and a session due
to trigger is suppressed at minute 100. -/
theorem C9_quiet_hours_gate_witness :
    isQuietHours {} 100 = true ∧
    isQuietHours {} 800 = false ∧
    checkAllSessions {} [("s", {})] 100 0 (fun _ => 0) = [] := by
  have h100 := C9_quiet_hours_gate {} 100 1380 420 (by decide) (by decide) (by norm_num)
  have h800 := C9_quiet_hours_gate {} 800 1380 420 (by decide) (by decide) (by norm_num)
  have hq : isQuietHours {} 100 = true :=
    (h100.2.1 (by norm_num)).mpr (by norm_num)
  refine ⟨hq, ?_, h100.2.2 hq [("s", {})] 0 (fun _ => 0)⟩
  have hnot : ¬(isQuietHours {} 800 = true) := fun hx => by
    have := (h800.2.1 (by norm_num)).mp hx
    omega
  exact Bool.eq_false_iff.mpr hnot

/-- C1 counterexample: the string `"好的\n心情：疲倦"` contains exactly
one metadata-keyword match, so by the claim it should be returned
unchanged — but the sanitizer truncates at any first match and returns
`"好的"`. -/
theorem C1_counterexample_single_match :
    (matchPositions "好的\n心情：疲倦".data).length = 1 ∧
    sanitizeContent "好的\n心情：疲倦" = "好的" ∧
    sanitizeContent "好的\n心情：疲倦" ≠ "好的\n心情：疲倦" := by
  refine ⟨by decide, by decide, by decide⟩

/-- C1 (amended): the sanitizer returns the content unchanged iff it has
no metadata-keyword match (not "fewer than 2"), and truncates at the
earliest match position (then strips) whenever at least one match exists:
the reported position is a match and every smaller position is not. -/
theorem C1_sanitizer_truncates_first_match (content : String) :
    (matchPositions content.data = [] → sanitizeContent content = content) ∧
    (∀ i, (matchPositions content.data).head? = some i →
        sanitizeContent content = ⟨pyStrip (content.data.take i)⟩ ∧
        matchAt content.data i = true ∧
        ∀ j, j < i → matchAt content.data j = false) := by
  constructor
  · intro hnone
    unfold sanitizeContent
    split
    · rfl
    · rw [hnone]; rfl
  · intro i hi
    have hne : content ≠ "" := by
      intro hc
      have h0 : matchPositions ("" : String).data = [] := by decide
      rw [hc, h0] at hi
      simp at hi
    obtain ⟨t, ht⟩ : ∃ t, matchPositions content.data = i :: t := by
      cases hmp : matchPositions content.data with
      | nil => rw [hmp] at hi; simp at hi
      | cons a t =>
          rw [hmp] at hi
          simp only [List.head?_cons, Option.some.injEq] at hi
          exact ⟨t, by rw [hi]⟩
    have hmem_i : i ∈ matchPositions content.data := by
      rw [ht]; exact List.mem_cons_self _ _
    have hAt : matchAt content.data i = true := (List.mem_filter.mp hmem_i).2
    have hibound : i < content.data.length + 1 :=
      List.mem_range.mp (List.mem_filter.mp hmem_i).1
    refine ⟨?_, hAt, ?_⟩
    · unfold sanitizeContent
      rw [if_neg hne, hi]
    · intro j hj
      cases hmt : matchAt content.data j with
      | false => rfl
      | true =>
          exfalso
          have hjmem : j ∈ matchPositions content.data :=
            List.mem_filter.mpr ⟨List.mem_range.mpr (lt_trans hj hibound), hmt⟩
          have hpair : (matchPositions content.data).Pairwise (· < ·) :=
            (List.pairwise_lt_range _).filter _
          rw [ht] at hpair hjmem
          cases hjmem with
          | head => omega
          | tail _ hmem2 =>
              have := (List.pairwise_cons.mp hpair).1 j hmem2
              omega

/-- Witness for C1 (amended) at the spec's own scenario-5 string (two
matches, earliest at the newline before `想法`): the send collapses to
`"好的"`. -/
theorem C1_sanitizer_truncates_first_match_witness :
    sanitizeContent "好的\n想法: 我其实很累\n心情: 疲倦" = "好的" ∧
    matchAt "好的\n想法: 我其实很累\n心情: 疲倦".data 2 = true ∧
    matchAt "好的\n想法: 我其实很累\n心情: 疲倦".data 0 = false := by
  have h := (C1_sanitizer_truncates_first_match "好的\n想法: 我其实很累\n心情: 疲倦").2 2
    (by decide)
  refine ⟨?_, h.2.1, h.2.2 0 (by norm_num)⟩
  rw [h.1]; decide

lemma mentalLines_eq_filter (entries : List MentalLogEntry) (cutoff : ℚ) :
    mentalLines entries cutoff
      = (entries.filter fun e =>
          decide (e.event_type = .BOT_PLANNING ∧ e.thought ≠ "" ∧
            cutoff ≤ e.timestamp)).map renderMentalLine := by
  induction entries with
  | nil => rfl
  | cons e es ih =>
      simp only [mentalLines, List.filterMap_cons, List.filter_cons] at ih ⊢
      by_cases h1 : e.timestamp < cutoff
      · have : ¬(e.event_type = .BOT_PLANNING ∧ e.thought ≠ "" ∧ cutoff ≤ e.timestamp) := by
          rintro ⟨-, -, hle⟩; exact absurd h1 (not_lt.mpr hle)
        simp [h1, this, ih]
      · by_cases h2 : e.event_type = .BOT_PLANNING ∧ e.thought ≠ ""
        · have : e.event_type = .BOT_PLANNING ∧ e.thought ≠ "" ∧ cutoff ≤ e.timestamp :=
            ⟨h2.1, h2.2, not_lt.mp h1⟩
          simp [h1, h2, this, ih]
        · have : ¬(e.event_type = .BOT_PLANNING ∧ e.thought ≠ "" ∧ cutoff ≤ e.timestamp) := by
            rintro ⟨ha, hb, -⟩; exact h2 ⟨ha, hb⟩
          simp [h1, h2, this, ih]

/-- C4: the fused timeline is sorted by timestamp ascending, a
`BotPlanning` mental-log entry contributes a line iff its thought is
non-empty and its timestamp is ≥ the cutoff (the mental half equals the
corresponding filter of the entries), the cutoff is the 7th-most-recent
chat timestamp when at least 7 exist and 0 otherwise, and the rendered
narrative is the header plus the sorted lines. -/
theorem C4_fused_narrative_sorted_and_cutoff (msgs : List HistoryMsg)
    (log : MentalLog) (bot_id : String) :
    ((fusedTimeline msgs log bot_id).map Prod.fst).Sorted (· ≤ ·) ∧
    mentalLines log.entries (mentalCutoff msgs bot_id)
      = (log.entries.filter fun e =>
          decide (e.event_type = .BOT_PLANNING ∧ e.thought ≠ "" ∧
            mentalCutoff msgs bot_id ≤ e.timestamp)).map renderMentalLine ∧
    (7 ≤ (chatLines msgs bot_id).length →
      mentalCutoff msgs bot_id
        = ((chatLines msgs bot_id).map Prod.fst).getD
            ((chatLines msgs bot_id).length - 7) 0) ∧
    ((chatLines msgs bot_id).length < 7 → mentalCutoff msgs bot_id = 0) ∧
    (fusedTimeline msgs log bot_id ≠ [] →
      build_fused_narrative msgs log bot_id
        = "以下为融合了聊天记录与你内心活动的时间线：\n"
            ++ String.intercalate "\n" ((fusedTimeline msgs log bot_id).map Prod.snd)) := by
  refine ⟨?_, mentalLines_eq_filter _ _, fun h7 => ?_, fun hlt => ?_, fun hne => ?_⟩
  · have hs : (fusedTimeline msgs log bot_id).Sorted (fun a b => a.1 ≤ b.1) :=
      List.sorted_insertionSort _ _
    exact List.Pairwise.map Prod.fst (fun a b h => h) hs
  · simp only [mentalCutoff, List.length_map]
    rw [if_pos h7]
  · simp only [mentalCutoff, List.length_map]
    rw [if_neg (by omega)]
  · simp only [build_fused_narrative, if_neg hne]

/-- Witness for C4: seven chat messages at t = 1..7 (cutoff becomes 1)
and two planning thoughts, at t = 0 (dropped) and t = 3 (kept, sorted
between the chat lines). -/
theorem C4_fused_narrative_sorted_and_cutoff_witness :
    mentalCutoff
        [{ time := some 1, sender_name := "甲", processed_plain_text := "a" },
         { time := some 2, sender_name := "甲", processed_plain_text := "b" },
         { time := some 3, sender_name := "甲", processed_plain_text := "c" },
         { time := some 4, sender_name := "甲", processed_plain_text := "d" },
         { time := some 5, sender_name := "甲", processed_plain_text := "e" },
         { time := some 6, sender_name := "甲", processed_plain_text := "f" },
         { time := some 7, sender_name := "甲", processed_plain_text := "g" }] "9" = 1 ∧
    mentalLines
        [{ event_type := .BOT_PLANNING, timestamp := 0, thought := "早" },
         { event_type := .BOT_PLANNING, timestamp := 3, thought := "嗯" },
         { event_type := .BOT_PLANNING, timestamp := 5, thought := "" },
         { event_type := .USER_MESSAGE, timestamp := 6, thought := "x" }] 1
      = [renderMentalLine { event_type := .BOT_PLANNING, timestamp := 3, thought := "嗯" }] := by
  have h := C4_fused_narrative_sorted_and_cutoff
    [{ time := some 1, sender_name := "甲", processed_plain_text := "a" },
     { time := some 2, sender_name := "甲", processed_plain_text := "b" },
     { time := some 3, sender_name := "甲", processed_plain_text := "c" },
     { time := some 4, sender_name := "甲", processed_plain_text := "d" },
     { time := some 5, sender_name := "甲", processed_plain_text := "e" },
     { time := some 6, sender_name := "甲", processed_plain_text := "f" },
     { time := some 7, sender_name := "甲", processed_plain_text := "g" }]
    { entries :=
        [{ event_type := .BOT_PLANNING, timestamp := 0, thought := "早" },
         { event_type := .BOT_PLANNING, timestamp := 3, thought := "嗯" },
         { event_type := .BOT_PLANNING, timestamp := 5, thought := "" },
         { event_type := .USER_MESSAGE, timestamp := 6, thought := "x" }] } "9"
  have hcut := h.2.2.1 (by decide)
  constructor
  · rw [hcut]; decide
  · have hml := h.2.1
    have hc : mentalCutoff
        [{ time := some 1, sender_name := "甲", processed_plain_text := "a" },
         { time := some 2, sender_name := "甲", processed_plain_text := "b" },
         { time := some 3, sender_name := "甲", processed_plain_text := "c" },
         { time := some 4, sender_name := "甲", processed_plain_text := "d" },
         { time := some 5, sender_name := "甲", processed_plain_text := "e" },
         { time := some 6, sender_name := "甲", processed_plain_text := "f" },
         { time := some 7, sender_name := "甲", processed_plain_text := "g" }] "9" = 1 := by
      rw [hcut]; decide
    rw [hc] at hml
    rw [hml]; decide

lemma contains_trans {s u t : String} (h1 : Contains s u) (h2 : Contains u t) :
    Contains s t := by
  obtain ⟨p, q, hs⟩ := h1
  obtain ⟨a, b, hu⟩ := h2
  exact ⟨p ++ a, b ++ q, by rw [hs, hu]; simp [String.append_assoc]⟩

lemma mem_contains_joinSep (sep : String) :
    ∀ (parts : List String) (b : String), b ∈ parts → Contains (joinSep sep parts) b
  | [], b, h => absurd h (List.not_mem_nil b)
  | [x], b, h => by
      rw [List.mem_singleton] at h
      subst h
      exact ⟨"", "", by simp [joinSep]⟩
  | x :: y :: rest, b, h => by
      rcases List.mem_cons.mp h with hb | hb
      · subst hb
        exact ⟨"", sep ++ joinSep sep (y :: rest), by simp [joinSep, String.append_assoc]⟩
      · obtain ⟨p, q, hq⟩ := mem_contains_joinSep sep (y :: rest) b hb
        exact ⟨x ++ sep ++ p, q, by simp [joinSep, hq, String.append_assoc]⟩

lemma template_contains_warning (a b c d w pb : String) :
    Contains (KFC_TIMEOUT_PROMPT_format a b c d w pb) w :=
  ⟨"# 等待超时通知\n你已经等待了 " ++ a ++ " 秒（约 " ++ b
      ++ " 分钟），对方还没有回复。\n你之前期望的回应：" ++ c
      ++ "\n你最后发送的消息：" ++ d ++ "\n",
   "\n" ++ pb ++ "\n请结合以上信息决定下一步行动，并按照 JSON 格式回复。",
   by simp [KFC_TIMEOUT_PROMPT_format, String.append_assoc]⟩

lemma template_contains_pending (a b c d w pb : String) :
    Contains (KFC_TIMEOUT_PROMPT_format a b c d w pb) pb :=
  ⟨"# 等待超时通知\n你已经等待了 " ++ a ++ " 秒（约 " ++ b
      ++ " 分钟），对方还没有回复。\n你之前期望的回应：" ++ c
      ++ "\n你最后发送的消息：" ++ d ++ "\n" ++ w ++ "\n",
   "\n请结合以上信息决定下一步行动，并按照 JSON 格式回复。",
   by simp [KFC_TIMEOUT_PROMPT_format, String.append_assoc]⟩

lemma build_timeout_context_eq (e : ℚ) (ex : String) (ct : ℕ) (lb : String)
    (pt : List String) :
    build_timeout_context e ex ct lb pt
      = KFC_TIMEOUT_PROMPT_format (pyFormat0f e) (pyFormat0f (e / 60))
          (if ex ≠ "" then ex else "对方能回复点什么")
          (if lb ≠ "" then lb else "（消息内容不可用）")
          (followupWarning (ct - 1))
          (if pt ≠ [] then "\n你等待期间的想法：" ++ joinSep "、" pt else "") := rfl

/-- C5 counterexample: at `elapsed = 120`, `consecutive_timeouts = 3`,
`pending_thoughts = [甲, 乙, 丙, 丁]`, neither timeout-payload builder
satisfies the claim's conjunction.  `build_timeout_context` (where the
graduated warning lives) lists all four pending thoughts inline —
including `甲`, the fourth-most-recent, which the claim says is dropped —
and renders no `  - ` bullet at all; `generate_timeout_decision` (the
payload the chatter actually appends) does bullet only the last three but
contains no strong stop advisory — no `强烈建议`, no `do_nothing`
mention. -/
theorem C5_counterexample_payload :
    listHasInfix (build_timeout_context 120 "" 3 "" ["甲", "乙", "丙", "丁"]).data
        "你等待期间的想法：甲、乙、丙、丁".data = true ∧
    listHasInfix (build_timeout_context 120 "" 3 "" ["甲", "乙", "丙", "丁"]).data
        "  - ".data = false ∧
    listHasInfix (generateTimeoutDecision 120 "" 3 ["甲", "乙", "丙", "丁"]).data
        "  - 乙".data = true ∧
    listHasInfix (generateTimeoutDecision 120 "" 3 ["甲", "乙", "丙", "丁"]).data
        "甲".data = false ∧
    listHasInfix (generateTimeoutDecision 120 "" 3 ["甲", "乙", "丙", "丁"]).data
        "强烈建议".data = false ∧
    listHasInfix (generateTimeoutDecision 120 "" 3 ["甲", "乙", "丙", "丁"]).data
        "do_nothing".data = false := by
  have hr : round (120 : ℚ) = 120 := by norm_num [round_eq]
  have h1 : pyFormat0f 120 = "120" := by rw [pyFormat0f, hr]; decide
  have hd : (120 : ℚ) / 60 = 2 := by norm_num
  have hr2 : round (2 : ℚ) = 2 := by norm_num [round_eq]
  have h2 : pyFormat0f ((120 : ℚ) / 60) = "2" := by rw [pyFormat0f, hd, hr2]; decide
  have hpay : build_timeout_context 120 "" 3 "" ["甲", "乙", "丙", "丁"]
      = KFC_TIMEOUT_PROMPT_format "120" "2" "对方能回复点什么" "（消息内容不可用）"
          (followupWarning 2)
          ("\n你等待期间的想法：" ++ joinSep "、" ["甲", "乙", "丙", "丁"]) := by
    rw [build_timeout_context_eq, h1, h2]
    decide
  refine ⟨?_, ?_, ?_, ?_, ?_, ?_⟩
  · rw [hpay]; decide
  · rw [hpay]; decide
  all_goals (unfold generateTimeoutDecision; rw [h1]; decide)

/-- C5 (amended): the graduated follow-up warning driven by
`followup_count = max(0, consecutive_timeouts − 1)` — strong stop
advisory at `followup_count ≥ 2`, soft at `= 1`, neutral at `= 0` — lives
in `build_timeout_context`, which however joins *all* pending thoughts
inline with `、`; the up-to-last-three bullet listing lives in the unified
strategy's `generate_timeout_decision`. -/
theorem C5_timeout_payload_contents :
    (∀ (e : ℚ) (ex : String) (ct : ℕ) (lb : String) (pt : List String),
        Contains (build_timeout_context e ex ct lb pt) (followupWarning (ct - 1))) ∧
    (∀ (e : ℚ) (ex : String) (ct : ℕ) (lb : String) (pt : List String), 3 ≤ ct →
        Contains (build_timeout_context e ex ct lb pt)
          "**极度推荐选择 do_nothing 并将 max_wait_seconds 设为 0**。") ∧
    (∀ (e : ℚ) (ex : String) (ct : ℕ) (lb : String) (pt : List String), ct = 2 →
        Contains (build_timeout_context e ex ct lb pt)
          "\n📝 温馨提醒：这是你第 2 次等待回复（已追问 1 次）。") ∧
    (∀ (e : ℚ) (ex : String) (ct : ℕ) (lb : String) (pt : List String), ct ≤ 1 →
        Contains (build_timeout_context e ex ct lb pt)
          "\n💭 这是第一次等待超时。如果觉得话题还没结束，") ∧
    (∀ (e : ℚ) (ex : String) (ct : ℕ) (lb : String) (pt : List String), pt ≠ [] →
        Contains (build_timeout_context e ex ct lb pt)
          ("你等待期间的想法：" ++ joinSep "、" pt)) ∧
    (∀ (e : ℚ) (ex : String) (ct : ℕ) (pt : List String), pt ≠ [] →
        Contains (generateTimeoutDecision e ex ct pt)
          ("等待期间你的想法：\n"
            ++ joinSep "\n" ((keepLast 3 pt).map (fun t => "  - " ++ t)))) := by
  have hwarn : ∀ (e : ℚ) (ex : String) (ct : ℕ) (lb : String) (pt : List String),
      Contains (build_timeout_context e ex ct lb pt) (followupWarning (ct - 1)) := by
    intro e ex ct lb pt
    rw [build_timeout_context_eq]
    exact template_contains_warning _ _ _ _ _ _
  refine ⟨hwarn, fun e ex ct lb pt h => ?_, fun e ex ct lb pt h => ?_,
    fun e ex ct lb pt h => ?_, fun e ex ct lb pt h => ?_, fun e ex ct pt h => ?_⟩
  · refine contains_trans (hwarn e ex ct lb pt) ?_
    have h2 : 2 ≤ ct - 1 := by omega
    have hw : followupWarning (ct - 1)
        = "\n⚠️ **强烈建议**: 你已经连续追问了 " ++ toString (ct - 1)
          ++ " 次，对方仍未回复。"
          ++ "**极度推荐选择 do_nothing 并将 max_wait_seconds 设为 0**。"
          ++ "对方可能在忙或需要空间，给彼此一些空间会更好。" := by
      unfold followupWarning
      rw [if_pos h2]
    exact ⟨"\n⚠️ **强烈建议**: 你已经连续追问了 " ++ toString (ct - 1)
        ++ " 次，对方仍未回复。",
      "对方可能在忙或需要空间，给彼此一些空间会更好。",
      by rw [hw]⟩
  · refine contains_trans (hwarn e ex ct lb pt) ?_
    have hfc : ct - 1 = 1 := by omega
    have hw : followupWarning (ct - 1)
        = "\n📝 温馨提醒：这是你第 2 次等待回复（已追问 1 次）。"
          ++ "可以再试着追问一次，但如果对方还是没回复，"
          ++ "**强烈建议**之后选择 do_nothing 结束等待。" := by
      rw [hfc]; decide
    exact ⟨"", "可以再试着追问一次，但如果对方还是没回复，"
        ++ "**强烈建议**之后选择 do_nothing 结束等待。",
      by rw [hw]; simp [String.append_assoc]⟩
  · refine contains_trans (hwarn e ex ct lb pt) ?_
    have hfc : ct - 1 = 0 := by omega
    have hw : followupWarning (ct - 1)
        = "\n💭 这是第一次等待超时。如果觉得话题还没结束，"
          ++ "可以适当追问一下，但也要考虑对方可能在忙。" := by
      rw [hfc]; decide
    exact ⟨"", "可以适当追问一下，但也要考虑对方可能在忙。",
      by rw [hw]; simp [String.append_assoc]⟩
  · have hpend : Contains (build_timeout_context e ex ct lb pt)
        ("\n你等待期间的想法：" ++ joinSep "、" pt) := by
      rw [build_timeout_context_eq, if_pos h]
      exact template_contains_pending _ _ _ _ _ _
    have hlit : ("\n你等待期间的想法：" : String)
        = "\n" ++ "你等待期间的想法：" := by decide
    rw [hlit, String.append_assoc] at hpend
    refine contains_trans hpend ⟨"\n", "", ?_⟩
    simp
  · unfold generateTimeoutDecision
    apply mem_contains_joinSep
    simp [h]

/-- Witness for C5 (amended) at `elapsed = 120`, `ct = 3`,
`pending = [甲, 乙]`. -/
theorem C5_timeout_payload_contents_witness :
    Contains (build_timeout_context 120 "" 3 "" ["甲", "乙"])
      "**极度推荐选择 do_nothing 并将 max_wait_seconds 设为 0**。" ∧
    Contains (build_timeout_context 120 "" 3 "" ["甲", "乙"])
      ("你等待期间的想法：" ++ joinSep "、" ["甲", "乙"]) ∧
    Contains (generateTimeoutDecision 120 "" 3 ["甲", "乙"])
      ("等待期间你的想法：\n"
        ++ joinSep "\n" ((keepLast 3 ["甲", "乙"]).map (fun t => "  - " ++ t))) := by
  have h := C5_timeout_payload_contents
  exact ⟨h.2.1 120 "" 3 "" ["甲", "乙"] (by norm_num),
         h.2.2.2.2.1 120 "" 3 "" ["甲", "乙"] (by simp),
         h.2.2.2.2.2 120 "" 3 ["甲", "乙"] (by simp)⟩

end KFC

